import Mathlib

/-!
Verification of the quiz-bot core logic (quiz_bot.py): the response parser
`parse_quiz_response`, the `/quiz` handler, the poll-answer handler, and the
retry loop of `generate_quiz_question_sync`, shallowly embedded as pure Lean
functions over character lists and explicit state.
-/

set_option maxRecDepth 8192

namespace QuizBot

/-- Python whitespace class for the regex escape and for str.strip:
space, tab, newline, carriage return, vertical tab, form feed. -/
def isPySpace (c : Char) : Bool :=
  c == ' ' || c == '\t' || c == '\n' || c == '\r' ||
  c == Char.ofNat 11 || c == Char.ofNat 12

/-- The part of a character list up to (not including) the first newline:
the regex dot without DOTALL matches any character except a newline. -/
def takeLine (l : List Char) : List Char :=
  l.takeWhile (fun c => c != '\n')

/-- Drop trailing whitespace. -/
def stripTrailing (l : List Char) : List Char :=
  (l.reverse.dropWhile isPySpace).reverse

/-- Python str.strip: drop leading and trailing whitespace. -/
def pyStrip (l : List Char) : List Char :=
  stripTrailing (l.dropWhile isPySpace)

/-- The suffix of the text after the first occurrence of the literal
pattern, or none when the pattern does not occur: the core of re.search
for a literal keyword. -/
def afterFirst (pat : List Char) : List Char → Option (List Char)
  | [] => if pat.isPrefixOf ([] : List Char) then some [] else none
  | c :: rest =>
    if pat.isPrefixOf (c :: rest) then some ((c :: rest).drop pat.length)
    else afterFirst pat rest

/-- The literal keyword anchoring the question line. -/
def qkey : List Char := ("Question:").toList

/-- The literal keyword anchoring the correct-answer line. -/
def ckey : List Char := ("Correct Answer:").toList

/-- The literal keyword anchoring the explanation. -/
def ekey : List Char := ("Explanation:").toList

/-- The placeholder substituted when the question keyword is absent. -/
def questionNotFound : String := "Question not found"

/-- Extraction of the question: re.search of the pattern
Question: backslash-s star dot star. The whitespace run after the colon is
greedy and may cross newlines; the capture then runs to the end of that
line, and the code strips the group. -/
def question (cs : List Char) : String :=
  match afterFirst qkey cs with
  | some rest => (pyStrip (takeLine (rest.dropWhile isPySpace))).asString
  | none => questionNotFound

/-- True for the option letters A, B, C, D accepted by the grammar. -/
def isOptionLetter (c : Char) : Bool :=
  c == 'A' || c == 'B' || c == 'C' || c == 'D'

/-- One scanning pass of re.findall for the option pattern: at each
position, a letter A-D followed by a closing parenthesis starts a match;
the match then skips a greedy whitespace run (which may cross newlines)
and captures up to the end of the line; scanning resumes after the
capture. The fuel argument starts at the list length and bounds the
recursion; every recursive call consumes at least one character. -/
def scanOptionsAux : Nat → List Char → List (Char × List Char)
  | 0, _ => []
  | _, [] => []
  | fuel + 1, c :: rest =>
    if isOptionLetter c then
      match rest with
      | ')' :: rest2 =>
        let afterWs := rest2.dropWhile isPySpace
        let txt := takeLine afterWs
        (c, txt) :: scanOptionsAux fuel (afterWs.drop txt.length)
      | _ => scanOptionsAux fuel rest
    else scanOptionsAux fuel rest

/-- All (letter, text) option matches of the findall pattern, in document
order. -/
def scanOptions (cs : List Char) : List (Char × List Char) :=
  scanOptionsAux cs.length cs

/-- The texts of the collected options, as in the list comprehension
dropping the letters. -/
def option_list (cs : List Char) : List String :=
  (scanOptions cs).map (fun p => p.2.asString)

/-- The first non-whitespace character after a candidate keyword
occurrence, accepted only when it is an option letter: the regex tail
backslash-s star followed by the character class A-D. Greedy whitespace
with backtracking can only ever test the first non-whitespace character,
since every shorter whitespace run ends on a whitespace character. -/
def letterAfter (l : List Char) : Option Char :=
  match l.dropWhile isPySpace with
  | d :: _ => if isOptionLetter d then some d else none
  | [] => none

/-- re.search for the correct-answer pattern: the first occurrence of the
keyword whose following non-whitespace character is a letter A-D; an
occurrence that fails the letter test is skipped and the search continues
at later positions, as the regex engine does. -/
def correct_letter : List Char → Option Char
  | [] => none
  | c :: rest =>
    match (if ckey.isPrefixOf (c :: rest) then letterAfter ((c :: rest).drop ckey.length) else none) with
    | some d => some d
    | none => correct_letter rest

/-- The zero-based correct index: ord of the letter minus ord of A. -/
def correct_index (cs : List Char) : Option Nat :=
  (correct_letter cs).map (fun c => c.toNat - 'A'.toNat)

/-- Extraction of the explanation: re.search with DOTALL, so the capture
runs to the end of the input after the greedy whitespace run; the code
strips the group. -/
def explanation (cs : List Char) : String :=
  match afterFirst ekey cs with
  | some rest => (pyStrip (rest.dropWhile isPySpace)).asString
  | none => ""

/-- The parse result quadruple. The question is an Option because the
except branch of the parser yields None in that position. -/
structure ParsedQuiz where
  question : Option String
  options : List String
  correctIndex : Option Nat
  explanation : String
deriving DecidableEq, Repr

/-- The message of the TypeError raised by re.search when the input is not
a string (the bot passes the completion result through unchecked). -/
def typeErrorMsg : String := "expected string or bytes-like object"

/-- The body of the try block: on a string input the four regex
extractions run and cannot fail; on a None input the first re.search call
raises a TypeError, modelled as an error value. -/
def extract_quiz_fields : Option String → Except String (String × List String × Option Nat × String)
  | none => Except.error typeErrorMsg
  | some t =>
    Except.ok (question t.toList, option_list t.toList, correct_index t.toList, explanation t.toList)

/-- parse_quiz_response: the try/except wrapper. A successful extraction
is returned as is; any extraction error is logged and converted to the
invalid result (None, [], None, empty string). -/
def parse_quiz_response (responseText : Option String) : ParsedQuiz :=
  match extract_quiz_fields responseText with
  | Except.ok (q, opts, ci, ex) => ⟨some q, opts, ci, ex⟩
  | Except.error _ => ⟨none, [], none, ""⟩

/-- The session record stored in bot_data under the poll id. -/
structure QuizSession where
  explanation : String
  chat_id : Int
deriving DecidableEq, Repr

/-- The observable action the quiz handler performs towards the chat:
either a plain text reply, or a quiz poll. -/
inductive QuizAction where
  | replyText (msg : String)
  | replyPoll (question : Option String) (options : List String) (correctOptionId : Nat)
deriving DecidableEq, Repr

/-- The failure message sent when the completion endpoint returned no
text. -/
def genFailMsg : String := "Sorry, failed to generate quiz question. Please try again later."

/-- The failure message sent when the parse result is unusable. -/
def parseFailMsg : String := "Sorry, could not parse question correctly. Please try again."

/-- The quiz handler as a pure transition: given the completion text, the
poll id the platform would assign, the chat id, and the current bot_data
mapping, it yields the action sent to the chat and the updated mapping.
An absent or falsy (empty) completion text yields the generation-failure
message; a parse with no correct index or no options yields the
parse-failure message; otherwise a quiz poll is created and a session is
registered under the poll id. -/
def quiz (responseText : Option String) (pollId : String) (chatId : Int)
    (botData : List (String × QuizSession)) : QuizAction × List (String × QuizSession) :=
  match responseText with
  | none => (QuizAction.replyText genFailMsg, botData)
  | some t =>
    if t = "" then (QuizAction.replyText genFailMsg, botData)
    else
      let p := parse_quiz_response (some t)
      match p.correctIndex with
      | none => (QuizAction.replyText parseFailMsg, botData)
      | some ci =>
        if p.options = [] then (QuizAction.replyText parseFailMsg, botData)
        else
          (QuizAction.replyPoll p.question p.options ci,
           (pollId, ⟨p.explanation, chatId⟩) :: botData)

/-- The poll-answer handler: looks the poll id up in bot_data; when a
session is present it sends the explanation message to the stored chat id,
otherwise nothing happens. The returned value is the (chat id, message)
pair sent, or none when no message is sent; bot_data is not modified. -/
def receive_poll_answer (pollId : String) (firstName : String)
    (botData : List (String × QuizSession)) : Option (Int × String) :=
  match botData.lookup pollId with
  | some data =>
    some (data.chat_id, "📖 Explanation for " ++ firstName ++ ":\n" ++ data.explanation)
  | none => none

/-- The retry loop body of generate_quiz_question_sync, iterating over the
attempt numbers of range(max_retries). Each attempt consults the endpoint
outcome: a success returns its text at once; a failure is logged (counted)
and, when it is not the last attempt, sleeps 2 to the power attempt
seconds before continuing, and otherwise returns None. The result triple
is (returned text, sleep delays in order, number of logged failures). -/
def generateLoop (outcome : Nat → Except String String) (max_retries : Nat) :
    List Nat → Option String × List Nat × Nat
  | [] => (none, [], 0)
  | attempt :: restAttempts =>
    match outcome attempt with
    | Except.ok text => (some text, [], 0)
    | Except.error _ =>
      if attempt < max_retries - 1 then
        let r := generateLoop outcome max_retries restAttempts
        (r.1, 2 ^ attempt :: r.2.1, r.2.2 + 1)
      else (none, [], 1)

/-- generate_quiz_question_sync: run the retry loop over attempts
0 .. max_retries - 1. -/
def generate_quiz_question_sync (outcome : Nat → Except String String) (max_retries : Nat) :
    Option String × List Nat × Nat :=
  generateLoop outcome max_retries (List.range max_retries)

/-- The end-to-end sample completion text of the specification. -/
def sampleText : String :=
  "Question: What gem do you use for Cucumber?\nOptions:\nA) cucumber\nB) rspec\nC) capybara\nD) selenium\nCorrect Answer: A\nExplanation: Cucumber is the gem implementing the Gherkin syntax."

/-- A letter accepted by letterAfter satisfies the option-letter class. -/
theorem letterAfter_isOption (l : List Char) (d : Char) (h : letterAfter l = some d) :
    isOptionLetter d = true := by
  unfold letterAfter at h
  split at h
  · split at h
    · cases h
      assumption
    · exact Option.noConfusion h
  · exact Option.noConfusion h

/-- A letter returned by the correct-answer search satisfies the
option-letter class A-D. -/
theorem correct_letter_isOption (cs : List Char) (L : Char)
    (h : correct_letter cs = some L) : isOptionLetter L = true := by
  induction cs with
  | nil => exact Option.noConfusion h
  | cons c rest ih =>
    rw [correct_letter] at h
    rcases hE : (if ckey.isPrefixOf (c :: rest) then letterAfter ((c :: rest).drop ckey.length) else none) with - | d
    · rw [hE] at h
      exact ih h
    · rw [hE] at h
      rw [Option.some.injEq] at h
      subst h
      by_cases hp : ckey.isPrefixOf (c :: rest)
      · rw [if_pos hp] at hE
        exact letterAfter_isOption _ _ hE
      · rw [if_neg hp] at hE
        exact Option.noConfusion hE

/-- C7: the concrete end-to-end sample text parses to exactly the
question, the four options, correct index 0, and the explanation stated
in the specification. -/
theorem sample_parses_exactly :
    parse_quiz_response (some sampleText) =
      ⟨some ("What gem do you use for Cucumber?"),
       ["cucumber", "rspec", "capybara", "selenium"], some 0,
       "Cucumber is the gem implementing the Gherkin syntax."⟩ := by
  decide

/-- The input on which the bounds invariant of the parse result fails. -/
def oorText : String := "A) cucumber\nCorrect Answer: D"

/-- C1: counter-evidence to the validity invariant. On the input with a
single option line A and the line Correct Answer: D, the parser returns
correctIndex 3 with an options list of length 1, no invalid flag is
raised, and the quiz handler still presents the poll (with an out-of-range
correct option id) and registers a session, instead of rejecting the
result as invalid. -/
theorem quiz_presents_out_of_range_correct_index :
    (parse_quiz_response (some oorText)).correctIndex = some 3 ∧
    (parse_quiz_response (some oorText)).options = ["cucumber"] ∧
    quiz (some oorText) ("poll-1") 5 [] =
      (QuizAction.replyPoll (some questionNotFound) ["cucumber"] 3,
       [(("poll-1"), ⟨"", 5⟩)]) := by
  decide

/-- C4: any error of the extraction body (the try block) is caught and
converted to the invalid parse result with a None question, an empty
options list, no correct index, and an empty explanation; the parser is a
total function, so no fault propagates past its boundary. -/
theorem parse_catches_extraction_errors (input : Option String) (err : String)
    (h : extract_quiz_fields input = Except.error err) :
    parse_quiz_response input = ⟨none, [], none, ""⟩ := by
  unfold parse_quiz_response
  rw [h]

/-- Witness for C4 at the concrete faulting input None, on which the
extraction raises a TypeError. -/
theorem parse_catches_extraction_errors_witness :
    parse_quiz_response none = ⟨none, [], none, ""⟩ :=
  parse_catches_extraction_errors none typeErrorMsg rfl

/-- C9: an answer event whose poll id was never registered in bot_data
produces no message at all: the handler returns without output and
without error. -/
theorem unregistered_poll_answer_ignored (pollId firstName : String)
    (botData : List (String × QuizSession))
    (h : botData.lookup pollId = none) :
    receive_poll_answer pollId firstName botData = none := by
  unfold receive_poll_answer
  rw [h]

/-- Witness for C9 on the empty session mapping. -/
theorem unregistered_poll_answer_ignored_witness :
    receive_poll_answer ("poll-x") ("Ann") [] = none :=
  unregistered_poll_answer_ignored ("poll-x") ("Ann") [] rfl

/-- C5: when the endpoint fails on all three allowed attempts, the
requester returns no text rather than raising. -/
theorem generate_returns_none_after_three_failures (outcome : Nat → Except String String)
    (h : ∀ i, i < 3 → ∃ e, outcome i = Except.error e) :
    (generate_quiz_question_sync outcome 3).1 = none := by
  obtain ⟨e0, h0⟩ := h 0 (by omega)
  obtain ⟨e1, h1⟩ := h 1 (by omega)
  obtain ⟨e2, h2⟩ := h 2 (by omega)
  have hr : List.range 3 = [0, 1, 2] := rfl
  simp [generate_quiz_question_sync, hr, generateLoop, h0, h1, h2]

/-- Witness for C5 with an endpoint that always fails. -/
theorem generate_returns_none_after_three_failures_witness :
    (generate_quiz_question_sync (fun _ => Except.error ("boom")) 3).1 = none :=
  generate_returns_none_after_three_failures (fun _ => Except.error ("boom"))
    (fun _ _ => ⟨"boom", rfl⟩)

/-- C6: when the endpoint fails on attempts 0 and 1 and succeeds on
attempt 2, the requester returns the successful text, the failure path
runs exactly twice, and the backoff delays are 1 second then 2 seconds. -/
theorem generate_retries_twice_then_succeeds (outcome : Nat → Except String String)
    (text e0 e1 : String)
    (h0 : outcome 0 = Except.error e0) (h1 : outcome 1 = Except.error e1)
    (h2 : outcome 2 = Except.ok text) :
    generate_quiz_question_sync outcome 3 = (some text, [1, 2], 2) := by
  have hr : List.range 3 = [0, 1, 2] := rfl
  simp [generate_quiz_question_sync, hr, generateLoop, h0, h1, h2]

/-- Witness for C6 with an endpoint that fails twice then succeeds. -/
theorem generate_retries_twice_then_succeeds_witness :
    generate_quiz_question_sync
      (fun n => if n == 2 then Except.ok ("txt") else Except.error ("boom")) 3 =
      (some ("txt"), [1, 2], 2) :=
  generate_retries_twice_then_succeeds
    (fun n => if n == 2 then Except.ok ("txt") else Except.error ("boom"))
    "txt" "boom" "boom" rfl rfl rfl

/-- C3: whenever the parse of a nonempty completion text yields no correct
index or an empty options list, the quiz handler replies with the
could-not-parse message and returns: no poll is created and the session
mapping is returned unchanged. -/
theorem quiz_rejects_invalid_parse (t pollId : String) (chatId : Int)
    (botData : List (String × QuizSession))
    (hne : ¬ t = "")
    (h : (parse_quiz_response (some t)).correctIndex = none ∨
         (parse_quiz_response (some t)).options = []) :
    quiz (some t) pollId chatId botData = (QuizAction.replyText parseFailMsg, botData) := by
  simp only [quiz]
  rw [if_neg hne]
  rcases h with h | h
  · simp [h]
  · rcases hci : (parse_quiz_response (some t)).correctIndex with - | ci
    · simp [hci]
    · simp [hci, h]

/-- Witness for C3 on a text with no recognisable quiz structure. -/
theorem quiz_rejects_invalid_parse_witness :
    quiz (some ("no quiz here")) ("poll-9") 7 [] = (QuizAction.replyText parseFailMsg, []) :=
  quiz_rejects_invalid_parse ("no quiz here") ("poll-9") 7 [] (by decide) (Or.inl (by decide))

/-- C8: if the question keyword is absent the parser substitutes the
literal placeholder; and if the explanation keyword is present, the
explanation is everything after the keyword to the end of the input,
newlines included, trimmed of leading and trailing whitespace. -/
theorem question_placeholder_and_explanation_tail (t : String) :
    (afterFirst qkey t.toList = none →
      (parse_quiz_response (some t)).question = some questionNotFound) ∧
    (∀ rest, afterFirst ekey t.toList = some rest →
      (parse_quiz_response (some t)).explanation = (pyStrip rest).asString) := by
  have hp : parse_quiz_response (some t) =
      ⟨some (question t.toList), option_list t.toList, correct_index t.toList,
       explanation t.toList⟩ := rfl
  constructor
  · intro h
    rw [hp]
    simp only [question, h]
  · intro rest h
    rw [hp]
    show explanation t.toList = (pyStrip rest).asString
    simp only [explanation, h]
    simp only [pyStrip, List.dropWhile_idempotent]

/-- The concrete text for the C8 witness: no question keyword, a
multi-line explanation with surrounding whitespace. -/
def w8Text : String := "Explanation:  uses regex  \nlines"

/-- The suffix of w8Text after the explanation keyword. -/
def w8Rest : List Char := ("  uses regex  \nlines").toList

/-- Witness for C8 on a text with no question keyword and a multi-line
explanation. -/
theorem question_placeholder_and_explanation_tail_witness :
    (parse_quiz_response (some w8Text)).question = some questionNotFound ∧
    (parse_quiz_response (some w8Text)).explanation = (pyStrip w8Rest).asString :=
  ⟨(question_placeholder_and_explanation_tail w8Text).1 (by decide),
   (question_placeholder_and_explanation_tail w8Text).2 w8Rest (by decide)⟩

/-- C10: every correct index the parser ever returns lies below 4: the
correct-answer pattern only accepts a single letter A-D, so the index is
bounded by the alphabet of the grammar, not by the options list. -/
theorem correct_index_bounded_by_grammar (input : Option String) (i : Nat)
    (h : (parse_quiz_response input).correctIndex = some i) : i < 4 := by
  cases input with
  | none => exact Option.noConfusion h
  | some t =>
    have hp : (parse_quiz_response (some t)).correctIndex = correct_index t.toList := rfl
    rw [hp] at h
    unfold correct_index at h
    rcases hcl : correct_letter t.toList with - | L
    · rw [hcl] at h
      exact Option.noConfusion h
    · rw [hcl] at h
      simp only [Option.map_some'] at h
      rw [Option.some.injEq] at h
      have hmem : L = 'A' ∨ L = 'B' ∨ L = 'C' ∨ L = 'D' := by
        simpa [isOptionLetter, or_assoc] using correct_letter_isOption _ _ hcl
      subst h
      rcases hmem with h | h | h | h <;> subst h <;> decide

/-- Witness for C10 on a text whose correct-answer letter is B. -/
theorem correct_index_bounded_by_grammar_witness :
    (parse_quiz_response (some ("Correct Answer: B"))).correctIndex = some 1 ∧ 1 < 4 :=
  ⟨by decide, correct_index_bounded_by_grammar (some ("Correct Answer: B")) 1 (by decide)⟩

/-- C2: on a text with a question line, option lines labelled A through D
in order, and a correct-answer letter, the parser recovers the question
from the question line, an options list whose length equals the number of
lettered matches, and a correct index that points at the option collected
from the line labelled with that letter. -/
theorem parser_recovers_wellformed_text (t : String) (restq : List Char) (L : Char)
    (hq : afterFirst qkey t.toList = some restq)
    (hletters : (scanOptions t.toList).map Prod.fst = ['A', 'B', 'C', 'D'])
    (hc : correct_letter t.toList = some L) :
    (parse_quiz_response (some t)).question =
        some ((pyStrip (takeLine (restq.dropWhile isPySpace))).asString) ∧
    (parse_quiz_response (some t)).options.length = (scanOptions t.toList).length ∧
    (parse_quiz_response (some t)).correctIndex = some (L.toNat - 'A'.toNat) ∧
    ∃ s, (scanOptions t.toList).get? (L.toNat - 'A'.toNat) = some (L, s) ∧
      (parse_quiz_response (some t)).options.get? (L.toNat - 'A'.toNat) = some s.asString := by
  have hp : parse_quiz_response (some t) =
      ⟨some (question t.toList), option_list t.toList, correct_index t.toList,
       explanation t.toList⟩ := rfl
  rw [hp]
  refine ⟨?_, ?_, ?_, ?_⟩
  · simp only [question, hq]
  · simp [option_list]
  · show correct_index t.toList = some (L.toNat - 'A'.toNat)
    unfold correct_index
    rw [hc]
    rfl
  · have hmem : L = 'A' ∨ L = 'B' ∨ L = 'C' ∨ L = 'D' := by
      simpa [isOptionLetter, or_assoc] using correct_letter_isOption _ _ hc
    rcases hl : scanOptions t.toList with - | ⟨⟨cA, sA⟩, rest1⟩
    · rw [hl] at hletters
      exact absurd hletters (by simp)
    rcases rest1 with - | ⟨⟨cB, sB⟩, rest2⟩
    · rw [hl] at hletters
      exact absurd hletters (by simp)
    rcases rest2 with - | ⟨⟨cC, sC⟩, rest3⟩
    · rw [hl] at hletters
      exact absurd hletters (by simp)
    rcases rest3 with - | ⟨⟨cD, sD⟩, rest4⟩
    · rw [hl] at hletters
      exact absurd hletters (by simp)
    rcases rest4 with - | ⟨pE, rest5⟩
    swap
    · rw [hl] at hletters
      exact absurd hletters (by simp)
    rw [hl] at hletters
    simp only [List.map_cons, List.map_nil, List.cons.injEq, and_true] at hletters
    obtain ⟨hA, hB, hC, hD⟩ := hletters
    subst hA
    subst hB
    subst hC
    subst hD
    rcases hmem with h | h | h | h <;> subst h
    · refine ⟨sA, rfl, ?_⟩
      show (option_list t.toList).get? ('A'.toNat - 'A'.toNat) = some sA.asString
      unfold option_list
      rw [hl]
      rfl
    · refine ⟨sB, rfl, ?_⟩
      show (option_list t.toList).get? ('B'.toNat - 'A'.toNat) = some sB.asString
      unfold option_list
      rw [hl]
      rfl
    · refine ⟨sC, rfl, ?_⟩
      show (option_list t.toList).get? ('C'.toNat - 'A'.toNat) = some sC.asString
      unfold option_list
      rw [hl]
      rfl
    · refine ⟨sD, rfl, ?_⟩
      show (option_list t.toList).get? ('D'.toNat - 'A'.toNat) = some sD.asString
      unfold option_list
      rw [hl]
      rfl

/-- The concrete well-formed text for the C2 witness. -/
def wfText : String := "Question: q\nA) a\nB) b\nC) c\nD) d\nCorrect Answer: B"

/-- The suffix of wfText after the question keyword. -/
def wfRest : List Char := (" q\nA) a\nB) b\nC) c\nD) d\nCorrect Answer: B").toList

/-- Witness for C2 on a well-formed text whose correct letter is B. -/
theorem parser_recovers_wellformed_text_witness :
    (parse_quiz_response (some wfText)).question =
        some ((pyStrip (takeLine (wfRest.dropWhile isPySpace))).asString) ∧
    (parse_quiz_response (some wfText)).options.length = (scanOptions wfText.toList).length ∧
    (parse_quiz_response (some wfText)).correctIndex = some ('B'.toNat - 'A'.toNat) ∧
    ∃ s, (scanOptions wfText.toList).get? ('B'.toNat - 'A'.toNat) = some ('B', s) ∧
      (parse_quiz_response (some wfText)).options.get? ('B'.toNat - 'A'.toNat) =
        some s.asString :=
  parser_recovers_wellformed_text wfText wfRest 'B' (by decide) (by decide) (by decide)

end QuizBot
